import Mathlib

/-!
Verification of the development file server in src/web/serve.py.

The program configures the Python standard library static-file server
(http.server.SimpleHTTPRequestHandler wrapped in socketserver.TCPServer):
it fixes a port and a serving directory, overrides end_headers to inject
four CORS/cache headers into every response, changes the process working
directory to the directory containing the script, and serves until a
keyboard interrupt arrives.

The embedding below translates the module constants, the handler subclass
and the main function directly from the source.  The parts of the behavior
that live in the Python standard library and the operating system (static
file resolution, socket binding, process exit on an uncaught exception)
are modelled explicitly; each such definition carries a doc comment saying
what it models.
-/

namespace Serve

/-- Module constant PORT = 8000 (serve.py line 12). -/
def PORT : Nat := 8000

/-- Module constant DIRECTORY = "static" (serve.py line 13). -/
def DIRECTORY : String := "static"

/-- An HTTP header: a name/value pair. -/
structure Header where
  name : String
  value : String
deriving DecidableEq, Repr

/-- The four headers that MyHTTPRequestHandler.end_headers sends, in the
order of the send_header calls (serve.py lines 19 to 26). -/
def corsHeaders : List Header :=
  [⟨"Access-Control-Allow-Origin", "*"⟩,
   ⟨"Access-Control-Allow-Methods", "GET, POST, OPTIONS"⟩,
   ⟨"Access-Control-Allow-Headers", "Content-Type"⟩,
   ⟨"Cache-Control", "no-cache, no-store, must-revalidate"⟩]

/-- MyHTTPRequestHandler.end_headers (serve.py lines 19 to 28).  In the
base handler, send_header only appends to a buffer and the buffer is
flushed to the client by the base end_headers, so at flush time the wire
header list is the buffered headers followed by the four injected ones. -/
def end_headers (pending : List Header) : List Header :=
  pending ++ corsHeaders

/-- File contents as a list of byte values. -/
abbrev Bytes := List Nat

/-- Modelled from the spec: the file tree below the serving root, a finite
map from relative paths (component lists, no separators) to file bytes. -/
structure FileSystem where
  files : List (List String × Bytes)
deriving DecidableEq, Repr

/-- Modelled from the spec: posixpath.normpath restricted to the absolute
request paths the handler sees, expressed on path components.  Empty and
"." components vanish; ".." removes the previous component and, at the
root, vanishes. -/
def normStep (acc : List String) (comp : String) : List String :=
  if comp = "" ∨ comp = "." then acc
  else if comp = ".." then acc.dropLast
  else acc ++ [comp]

def normpathComps (comps : List String) : List String :=
  comps.foldl normStep []

/-- Split a character list at every occurrence of a separator, keeping
empty pieces, as the Python str.split of a path on "/" does. -/
def splitOnChar (sep : Char) : List Char → List (List Char)
  | [] => [[]]
  | c :: rest =>
      let r := splitOnChar sep rest
      if c = sep then [] :: r
      else
        match r with
        | [] => [[c]]
        | w :: ws => (c :: w) :: ws

/-- Modelled from the spec: SimpleHTTPRequestHandler.translate_path.  The
query and fragment are cut off, the path is split on "/" and normalised,
and the remaining components are resolved below the serving root, so the
result is the list of path components relative to the root. -/
def translate_path (p : String) : List String :=
  let noQuery := p.data.takeWhile (fun c => c != '?')
  let noFrag := noQuery.takeWhile (fun c => c != '#')
  normpathComps ((splitOnChar '/' noFrag).map List.asString)

/-- Look a relative path up in the file tree. -/
def fsLookup (fs : FileSystem) (path : List String) : Option Bytes :=
  (fs.files.find? (fun f => f.1 == path)).map (fun f => f.2)

/-- A relative path names a directory when it is the root itself or some
file lives strictly below it. -/
def isDir (fs : FileSystem) (comps : List String) : Bool :=
  comps.isEmpty || fs.files.any (fun f => comps.isPrefixOf f.1 && !(comps == f.1))

/-- Modelled from the spec: standard static-file resolution.  A directory
falls back to its index.html; otherwise the file at the translated path is
served; none means the request will get a 404. -/
def resolve (fs : FileSystem) (reqPath : String) : Option Bytes :=
  let comps := translate_path reqPath
  if isDir fs comps then fsLookup fs (comps ++ ["index.html"])
  else fsLookup fs comps

/-- An HTTP response as the client sees it. -/
structure Response where
  status : Nat
  headers : List Header
  body : Bytes
deriving DecidableEq, Repr

/-- Modelled from the spec: the HTML error page the base handler
generates.  The spec fixes only the status code of error responses, so the
page is represented by the code rendered as bytes. -/
def errorPage (code : Nat) : Bytes :=
  (toString code).toList.map Char.toNat

/-- Modelled from the spec: the GET handling of SimpleHTTPRequestHandler.
Every branch, success or error, emits its headers through end_headers of
the subclass. -/
def do_GET (fs : FileSystem) (reqPath : String) : Response :=
  match resolve fs reqPath with
  | some bytes =>
      { status := 200,
        headers := end_headers [⟨"Content-Length", toString bytes.length⟩],
        body := bytes }
  | none =>
      { status := 404,
        headers := end_headers [⟨"Content-Length", toString (errorPage 404).length⟩],
        body := errorPage 404 }

/-- An HTTP request method. -/
inductive Method where
  | GET
  | HEAD
  | POST
  | OPTIONS
  | other (verb : String)
deriving DecidableEq, Repr

/-- Modelled from the spec: dispatch of BaseHTTPRequestHandler.  The
static handler defines do_GET and do_HEAD only; any other method has no
handler method and receives the 501 Unsupported method error response,
again emitted through end_headers of the subclass. -/
def handle_one_request (fs : FileSystem) (m : Method) (reqPath : String) : Response :=
  match m with
  | Method.GET => do_GET fs reqPath
  | Method.HEAD => { do_GET fs reqPath with body := [] }
  | _ =>
      { status := 501,
        headers := end_headers [⟨"Content-Length", toString (errorPage 501).length⟩],
        body := errorPage 501 }

/-- The process state the program touches: the current working directory
and the directory containing the script, both as absolute component
paths. -/
structure ProcState where
  cwd : List String
  scriptDir : List String
deriving DecidableEq, Repr

/-- Modelled from the spec: os.chdir, replacing the working directory. -/
def os_chdir (s : ProcState) (d : List String) : ProcState :=
  { s with cwd := d }

/-- The first statement of main (serve.py line 32): change the working
directory to the directory containing the script. -/
def main_startup (s : ProcState) : ProcState :=
  os_chdir s s.scriptDir

/-- The root a handler with the relative directory DIRECTORY resolves
against: the working directory joined with DIRECTORY. -/
def handlerRoot (cwd : List String) : List String :=
  cwd ++ [DIRECTORY]

/-- The root directory the server serves: the working directory after
startup joined with DIRECTORY. -/
def servedRoot (s : ProcState) : List String :=
  handlerRoot (main_startup s).cwd

/-- The response of the running server to a request, given the disk
content as a map from an absolute root to the file tree below it. -/
def serverResponse (disk : List String → FileSystem) (s : ProcState)
    (m : Method) (p : String) : Response :=
  handle_one_request (disk (servedRoot s)) m p

/-- Modelled from the spec: the operating system ports that a bind cannot
take, because another process holds them or privilege is missing. -/
structure NetState where
  unavailable : List Nat
deriving DecidableEq, Repr

/-- The observable outcome of one run of main. -/
structure MainOutcome where
  exitCode : Nat
  servedPort : Option Nat
  socketClosed : Bool
  shutdownMsgPrinted : Bool
  errorPrinted : Bool
deriving DecidableEq, Repr

/-- The host part of the bind address (serve.py line 34).  Modelled from
the spec: the empty host string binds every interface, 0.0.0.0. -/
def allInterfacesHost : String := ""

/-- The address main passes to TCPServer (serve.py line 34). -/
def serverAddress : String × Nat := (allInterfacesHost, PORT)

/-- The main function (serve.py lines 30 to 46) on the run that ends: it
changes into the script directory, then binds TCPServer on the fixed port.
Modelled from the spec: when the port is unavailable the bind raises, the
exception propagates, the interpreter prints the diagnostic and exits with
a non-zero code and no socket is left open.  Otherwise the server serves
until the keyboard interrupt arrives; the except branch prints the
shutdown message and calls sys.exit(0), which unwinds through the
with-block so the listening socket is closed and the port released before
the process exits with code 0. -/
def main_run (s : ProcState) (net : NetState) :
    MainOutcome × ProcState × NetState :=
  let s1 := main_startup s
  if PORT ∈ net.unavailable then
    (⟨1, none, true, false, true⟩, s1, net)
  else
    (⟨0, some PORT, true, true, false⟩, s1, net)

/-- Resolution of a relative path by any later file operation of the
process: against the current working directory. -/
def resolveRelative (s : ProcState) (rel : List String) : List String :=
  s.cwd ++ rel

/-! Helper lemmas shared by several claims. -/

/-- The injected headers are members of every flushed header list. -/
theorem mem_end_headers (pending : List Header) (h : Header)
    (hmem : h ∈ corsHeaders) : h ∈ end_headers pending :=
  List.mem_append.mpr (Or.inr hmem)

/-- The fold behind normpathComps keeps every component plain: never
empty, never a dot, never a parent reference. -/
theorem normStep_foldl_clean (comps : List String) (acc : List String)
    (hacc : ∀ c ∈ acc, c ≠ "" ∧ c ≠ "." ∧ c ≠ "..") :
    ∀ c ∈ comps.foldl normStep acc, c ≠ "" ∧ c ≠ "." ∧ c ≠ ".." := by
  induction comps generalizing acc with
  | nil => simpa using hacc
  | cons head tail ih =>
    simp only [List.foldl_cons]
    apply ih
    unfold normStep
    by_cases h1 : head = "" ∨ head = "."
    · simpa [h1] using hacc
    · by_cases h2 : head = ".."
      · simp only [h1, h2, if_false, if_true, ite_true, ite_false]
        intro c hc
        exact hacc c (List.dropLast_subset _ hc)
      · simp only [h1, h2, ite_false]
        intro c hc
        rcases List.mem_append.mp hc with hmem | hmem
        · exact hacc c hmem
        · push_neg at h1
          simp only [List.mem_singleton] at hmem
          subst hmem
          exact ⟨h1.1, h1.2, h2⟩

/-- Translated paths consist of plain components only. -/
theorem translate_path_clean (p : String) :
    ∀ c ∈ translate_path p, c ≠ "" ∧ c ≠ "." ∧ c ≠ ".." := by
  unfold translate_path normpathComps
  exact normStep_foldl_clean _ [] (by simp)

/-! The claims. -/

/-- C1: every HTTP response the server produces, success or error,
carries the four fixed CORS/cache headers with exactly these values,
because every header flush goes through the overridden end_headers. -/
theorem c1_every_response_has_cors_headers (fs : FileSystem) (m : Method)
    (p : String) (h : Header) (hmem : h ∈ corsHeaders) :
    h ∈ (handle_one_request fs m p).headers := by
  cases m <;> cases hres : resolve fs p <;>
    simp only [handle_one_request, do_GET, hres] <;>
    exact mem_end_headers _ h hmem

theorem c1_witness :
    Header.mk "Access-Control-Allow-Origin" "*" ∈
      (handle_one_request ⟨[]⟩ Method.GET "/").headers :=
  c1_every_response_has_cors_headers ⟨[]⟩ Method.GET "/"
    ⟨"Access-Control-Allow-Origin", "*"⟩ (by simp [corsHeaders])

/-- C2: static-file resolution: an existing file path answers 200 with the
file bytes, a path resolving to nothing answers 404, the root path serves
index.html when present, and no translated path escapes the root (every
component is plain, so the resolved path stays below the serving root). -/
theorem c2_static_file_resolution (fs : FileSystem) (p : String) :
    (∀ b, isDir fs (translate_path p) = false →
        fsLookup fs (translate_path p) = some b →
        (do_GET fs p).status = 200 ∧ (do_GET fs p).body = b) ∧
    (resolve fs p = none → (do_GET fs p).status = 404) ∧
    (∀ b, fsLookup fs ["index.html"] = some b →
        (do_GET fs "/").status = 200 ∧ (do_GET fs "/").body = b) ∧
    (∀ c ∈ translate_path p, c ≠ "" ∧ c ≠ "." ∧ c ≠ "..") := by
  refine ⟨?_, ?_, ?_, translate_path_clean p⟩
  · intro b hdir hlook
    have hres : resolve fs p = some b := by
      simp [resolve, hdir, hlook]
    simp [do_GET, hres]
  · intro hres
    simp [do_GET, hres]
  · intro b hlook
    have hcomps : translate_path "/" = [] := by decide
    have hres : resolve fs "/" = some b := by
      simp [resolve, hcomps, isDir, hlook]
    simp [do_GET, hres]

theorem c2_witness :
    (do_GET ⟨[(["index.html"], [104, 105])]⟩ "/").status = 200 ∧
    (do_GET ⟨[(["index.html"], [104, 105])]⟩ "/").body = [104, 105] :=
  (c2_static_file_resolution ⟨[(["index.html"], [104, 105])]⟩ "/").2.2.1
    [104, 105] (by decide)

/-- C3: the served root depends only on the script directory, never on the
working directory of the caller, so two invocations from different working
directories serve the same directory and give the same response to any
request. -/
theorem c3_root_independent_of_cwd (s1 s2 : ProcState)
    (hs : s1.scriptDir = s2.scriptDir) :
    servedRoot s1 = servedRoot s2 ∧
    ∀ disk m p, serverResponse disk s1 m p = serverResponse disk s2 m p := by
  have hroot : servedRoot s1 = servedRoot s2 := by
    simp [servedRoot, handlerRoot, main_startup, os_chdir, hs]
  exact ⟨hroot, fun disk m p => by simp [serverResponse, hroot]⟩

theorem c3_witness :
    servedRoot ⟨["a"], ["s"]⟩ = servedRoot ⟨["b"], ["s"]⟩ :=
  (c3_root_independent_of_cwd ⟨["a"], ["s"]⟩ ⟨["b"], ["s"]⟩ rfl).1

/-- C4: on the run that is stopped by a keyboard interrupt (the bind
having succeeded), the process exits with code 0, the listening socket is
closed, and the shutdown message is printed. -/
theorem c4_interrupt_clean_shutdown (s : ProcState) (net : NetState)
    (hfree : PORT ∉ net.unavailable) :
    (main_run s net).1.exitCode = 0 ∧
    (main_run s net).1.socketClosed = true ∧
    (main_run s net).1.shutdownMsgPrinted = true := by
  simp [main_run, hfree]

theorem c4_witness :
    (main_run ⟨[], []⟩ ⟨[]⟩).1.exitCode = 0 ∧
    (main_run ⟨[], []⟩ ⟨[]⟩).1.socketClosed = true ∧
    (main_run ⟨[], []⟩ ⟨[]⟩).1.shutdownMsgPrinted = true :=
  c4_interrupt_clean_shutdown ⟨[], []⟩ ⟨[]⟩ (by simp)

/-- C5: the run exits non-zero exactly when the fixed port is unavailable
at bind time, and in that case a diagnostic is printed and no port is ever
served: bind failure is the only fatal condition, it is not retried, and
the server never falls back to a different port. -/
theorem c5_bind_failure_fatal (s : ProcState) (net : NetState) :
    ((main_run s net).1.exitCode ≠ 0 ↔ PORT ∈ net.unavailable) ∧
    (PORT ∈ net.unavailable →
      (main_run s net).1.errorPrinted = true ∧
      (main_run s net).1.servedPort = none) := by
  by_cases hp : PORT ∈ net.unavailable <;> simp [main_run, hp]

theorem c5_witness :
    (main_run ⟨[], []⟩ ⟨[8000]⟩).1.errorPrinted = true ∧
    (main_run ⟨[], []⟩ ⟨[8000]⟩).1.servedPort = none :=
  (c5_bind_failure_fatal ⟨[], []⟩ ⟨[8000]⟩).2 (by decide)

/-- C6: a run that ended in a clean interrupt shutdown leaves the port
available again, so starting the program afterwards on the same port also
binds and, interrupted in turn, exits cleanly. -/
theorem c6_port_released_after_interrupt (s s2 : ProcState) (net : NetState)
    (hclean : (main_run s net).1.exitCode = 0) :
    (main_run s2 (main_run s net).2.2).1.exitCode = 0 := by
  by_cases hp : PORT ∈ net.unavailable
  · simp [main_run, hp] at hclean
  · simp [main_run, hp]

theorem c6_witness :
    (main_run ⟨[], []⟩ (main_run ⟨[], []⟩ ⟨[]⟩).2.2).1.exitCode = 0 :=
  c6_port_released_after_interrupt ⟨[], []⟩ ⟨[], []⟩ ⟨[]⟩ (by decide)

/-- C7: a method other than GET and HEAD has no handler method on the
static handler, so it receives the default 501 error response of the base
handler, an ordinary HTTP response that still carries the injected
headers; request handling is total, never a process failure. -/
theorem c7_other_methods_get_default_error (fs : FileSystem) (p : String)
    (m : Method) (hg : m ≠ Method.GET) (hh : m ≠ Method.HEAD) :
    (handle_one_request fs m p).status = 501 ∧
    ∀ h ∈ corsHeaders, h ∈ (handle_one_request fs m p).headers := by
  cases m with
  | GET => exact absurd rfl hg
  | HEAD => exact absurd rfl hh
  | POST => exact ⟨rfl, fun h hmem => mem_end_headers _ h hmem⟩
  | OPTIONS => exact ⟨rfl, fun h hmem => mem_end_headers _ h hmem⟩
  | other verb => exact ⟨rfl, fun h hmem => mem_end_headers _ h hmem⟩

theorem c7_witness :
    (handle_one_request ⟨[]⟩ Method.POST "/").status = 501 :=
  (c7_other_methods_get_default_error ⟨[]⟩ "/" Method.POST
    (by simp) (by simp)).1

/-- C8: the server binds the all-interfaces host on the fixed port 8000,
and any port it ever serves is that constant; no run-time input reaches
the address (main_run takes none), so the port changes only with the
source constant. -/
theorem c8_fixed_bind_address (s : ProcState) (net : NetState) :
    serverAddress = (allInterfacesHost, 8000) ∧ PORT = 8000 ∧
    ∀ q, (main_run s net).1.servedPort = some q → q = PORT := by
  refine ⟨rfl, rfl, fun q hq => ?_⟩
  by_cases hp : PORT ∈ net.unavailable <;> simp [main_run, hp] at hq
  exact hq.symm

theorem c8_witness : (8000 : Nat) = PORT :=
  (c8_fixed_bind_address ⟨[], []⟩ ⟨[]⟩).2.2 8000 (by decide)

/-- C9: the served root is exactly the script directory joined with the
fixed constant "static", and every request is resolved against that
directory. -/
theorem c9_root_is_script_dir_static (s : ProcState) :
    DIRECTORY = "static" ∧
    servedRoot s = s.scriptDir ++ ["static"] ∧
    ∀ disk m p, serverResponse disk s m p =
      handle_one_request (disk (s.scriptDir ++ ["static"])) m p := by
  refine ⟨rfl, ?_, fun disk m p => ?_⟩ <;>
    simp [serverResponse, servedRoot, handlerRoot, main_startup, os_chdir,
      DIRECTORY]

/-- C10: main mutates the process working directory to the script
directory before binding, the mutation survives the whole run, it is a
real change whenever the caller started elsewhere, and afterwards every
relative path of the process resolves against the script directory. -/
theorem c10_chdir_mutation_persists (s : ProcState) (net : NetState) :
    (main_startup s).cwd = s.scriptDir ∧
    (main_run s net).2.1.cwd = s.scriptDir ∧
    (s.cwd ≠ s.scriptDir → (main_run s net).2.1.cwd ≠ s.cwd) ∧
    ∀ rel, resolveRelative (main_run s net).2.1 rel = s.scriptDir ++ rel := by
  have hcwd : (main_run s net).2.1.cwd = s.scriptDir := by
    by_cases hp : PORT ∈ net.unavailable <;>
      simp [main_run, main_startup, os_chdir, hp]
  refine ⟨rfl, hcwd, fun hne => ?_, fun rel => ?_⟩
  · rw [hcwd]
    exact fun hcontra => hne hcontra.symm
  · simp [resolveRelative, hcwd]

theorem c10_witness :
    (main_run ⟨["home"], ["app"]⟩ ⟨[]⟩).2.1.cwd ≠ ["home"] :=
  (c10_chdir_mutation_persists ⟨["home"], ["app"]⟩ ⟨[]⟩).2.2.1 (by decide)

end Serve
